import Mathlib

/-!
# Verification of the front-js tunnel proxy worker

A shallow embedding of `src/index.ts`, the Cloudflare Worker that resolves a
tunnel client id to an upstream endpoint via the external registry at
`https://ohishi-auth.mtamaramu.com/tunnels` and forwards requests to it.

The worker's outbound `fetch` calls are modelled by oracles: the outcome of the
registry lookup (`RegistryOutcome`) and of the single upstream forward
(`UpstreamOutcome`) are parameters of the handler, and the handler additionally
returns the list of outbound calls it issued, so that "no outbound call is
made" claims are statements about that trace.
-/

namespace FrontJs

/-! ## String helpers

JavaScript string primitives used by the worker (`split` on a single-character
separator, `trim`, `startsWith`), modelled over character lists so that every
definition is executable and kernel-reducible. -/

/-- Split a character list at the first character satisfying `p`; the second
component starts with that character when one exists. -/
def splitAtFirst (p : Char → Bool) : List Char → List Char × List Char
  | [] => ([], [])
  | c :: rest =>
    if p c then ([], c :: rest)
    else
      let r := splitAtFirst p rest
      (c :: r.1, r.2)

/-- `String.prototype.split(sep)` for a one-character separator: always returns
at least one (possibly empty) piece, e.g. splitting `""` gives `[""]`. -/
def splitOnCharAux (sep : Char) : List Char → List Char → List (List Char)
  | [], acc => [acc.reverse]
  | c :: rest, acc =>
    if c = sep then acc.reverse :: splitOnCharAux sep rest []
    else splitOnCharAux sep rest (c :: acc)

/-- `s.split(sep)` of JavaScript for a one-character separator. -/
def splitOnChar (sep : Char) (s : String) : List String :=
  (splitOnCharAux sep s.toList []).map String.mk

/-- `s.trim()` of JavaScript: strip leading and trailing whitespace. -/
def jsTrim (s : String) : String :=
  String.mk (((s.toList.dropWhile Char.isWhitespace).reverse.dropWhile
    Char.isWhitespace).reverse)

/-- `s.startsWith(p)` of JavaScript. -/
def strStartsWith (s p : String) : Bool :=
  p.toList.isPrefixOf s.toList

/-! ## JSON values

Bodies the worker builds with `JSON.stringify({...})`; objects keep insertion
order, as `JSON.stringify` does. -/

inductive JsonVal where
  | str (s : String)
  | num (n : Int)
  | bool (b : Bool)
  | null
  | arr (xs : List JsonVal)
  | obj (fields : List (String × JsonVal))

mutual

/-- Does a field named `k` occur anywhere in the JSON value? -/
def mentionsKey (k : String) : JsonVal → Bool
  | .obj fs => mentionsKeyFields k fs
  | .arr xs => mentionsKeyArr k xs
  | _ => false

/-- `mentionsKey` over the elements of an array. -/
def mentionsKeyArr (k : String) : List JsonVal → Bool
  | [] => false
  | x :: xs => mentionsKey k x || mentionsKeyArr k xs

/-- `mentionsKey` over the fields of an object. -/
def mentionsKeyFields (k : String) : List (String × JsonVal) → Bool
  | [] => false
  | (k2, v) :: fs => k2 == k || mentionsKey k v || mentionsKeyFields k fs

end

/-- Escape a character for a JSON string literal (quote and backslash; the
worker's payloads contain no control characters). -/
def escapeJsonChar (c : Char) : String :=
  if c = '"' then "\\\"" else if c = '\\' then "\\\\" else String.singleton c

/-- Escape a string for a JSON string literal. -/
def escapeJson (s : String) : String :=
  String.join (s.toList.map escapeJsonChar)

/-- `JSON.stringify` of a string value. -/
def quoteJson (s : String) : String :=
  "\"" ++ escapeJson s ++ "\""

mutual

/-- `JSON.stringify`, preserving object insertion order. -/
def serializeJson : JsonVal → String
  | .str s => quoteJson s
  | .num n => toString n
  | .bool b => if b then "true" else "false"
  | .null => "null"
  | .arr xs => "[" ++ serializeArr xs ++ "]"
  | .obj fs => "\x7b" ++ serializeObj fs ++ "\x7d"

/-- `JSON.stringify` of a comma-separated element list. -/
def serializeArr : List JsonVal → String
  | [] => ""
  | [x] => serializeJson x
  | x :: y :: xs => serializeJson x ++ "," ++ serializeArr (y :: xs)

/-- `JSON.stringify` of a comma-separated field list. -/
def serializeObj : List (String × JsonVal) → String
  | [] => ""
  | [(k, v)] => quoteJson k ++ ":" ++ serializeJson v
  | (k, v) :: f :: fs => quoteJson k ++ ":" ++ serializeJson v ++ "," ++ serializeObj (f :: fs)

end

/-! ## URLs

A model of the WHATWG `URL` class for the absolute `http(s)` URLs this worker
handles: `scheme://host[/path][?query]`, with no userinfo, port splitting,
fragment, or percent-encoding normalization (none of the worker's URL strings
need them).  `search` carries its leading `?` (or is empty), as `url.search`
does in JavaScript. -/

structure UrlModel where
  scheme : String
  host : String
  path : String
  search : String
deriving Repr, DecidableEq

/-- `new URL(s)` for an absolute URL: `none` models the constructor throwing.
A URL with an empty path gets pathname `/`, as the WHATWG parser does for
special schemes. -/
def parseUrl (s : String) : Option UrlModel :=
  let cs := s.toList
  let sr := splitAtFirst (· = ':') cs
  match sr.2 with
  | ':' :: '/' :: '/' :: rest2 =>
    let hr := splitAtFirst (fun c => c = '/' || c = '?') rest2
    if sr.1 = [] || hr.1 = [] then none
    else
      let pq := splitAtFirst (· = '?') hr.2
      some { scheme := String.mk sr.1,
             host := String.mk hr.1,
             path := if pq.1 = [] then "/" else String.mk pq.1,
             search := String.mk pq.2 }
  | _ => none

/-- `url.pathname = p`: for special schemes an empty assignment yields `/`, and
a missing leading slash is added. -/
def setPathname (u : UrlModel) (p : String) : UrlModel :=
  { u with path := if p = "" then "/" else if strStartsWith p "/" then p else "/" ++ p }

/-- `url.search = s`: empty clears the query, otherwise a missing leading `?`
is added. -/
def setSearch (u : UrlModel) (s : String) : UrlModel :=
  { u with search := if s = "" then "" else if strStartsWith s "?" then s else "?" ++ s }

/-- `url.toString()` for the modelled URL subset. -/
def urlToString (u : UrlModel) : String :=
  u.scheme ++ "://" ++ u.host ++ u.path ++ u.search

/-! ## Data model (`src/index.ts` interfaces) -/

/-- `interface TunnelData` of `src/index.ts`. -/
structure TunnelData where
  clientId : String
  tunnelUrl : String
  updatedAt : Int
  createdAt : Int
deriving Repr, DecidableEq

/-- `interface TunnelResponse` of `src/index.ts`: the registry authority's
`GET /tunnels` payload. -/
structure TunnelResponse where
  success : Bool
  data : List TunnelData
  count : Int
deriving Repr, DecidableEq

/-- The worker's environment bindings: `ALLOWED_CLIENT_IDS` and
`LOCAL_TUNNEL_URLS` are optional string vars (`none` = undefined), `ASSETS`
records whether the static-assets binding is configured. -/
structure Env where
  ALLOWED_CLIENT_IDS : Option String
  LOCAL_TUNNEL_URLS : Option String
  ASSETS : Bool
deriving Repr, DecidableEq

/-- JavaScript truthiness of an optional env string: `undefined` and `""` are
falsy. -/
def truthy : Option String → Bool
  | none => false
  | some s => !(s == "")

/-- An inbound request: method, `url.pathname`, `url.search`, headers, body. -/
structure Req where
  method : String
  path : String
  search : String
  headers : List (String × String)
  body : Option String
deriving Repr, DecidableEq

/-- `headers.get(name)`: header names compare case-insensitively. -/
def headerGet (hs : List (String × String)) (name : String) : Option String :=
  (hs.find? (fun h => h.1.toLower == name.toLower)).map (·.2)

/-- The body of a worker response. `json v` is a body built here with
`JSON.stringify v`; `text s` is an upstream body re-read with `.text()`;
`stream s` is an upstream body passed through unread; `asset` is a static
asset. -/
inductive Body where
  | empty
  | json (v : JsonVal)
  | text (s : String)
  | stream (s : String)
  | asset

/-- A response as the worker constructs it (`new Response(...)` leaves
`statusText` empty unless set). -/
structure WResponse where
  status : Nat
  statusText : String
  headers : List (String × String)
  body : Body

/-- One outbound `fetch` issued by the worker. -/
structure OutboundCall where
  url : String
  method : String
  headers : List (String × String)
  body : Option String
deriving Repr, DecidableEq

/-- Outcome of the registry lookup `fetch(authUrl, ...)`: a thrown transport
error, a non-ok HTTP response, or an ok response with parsed JSON body. -/
inductive RegistryOutcome where
  | throwErr (msg : String)
  | httpErr (status : Nat) (statusText : String)
  | ok (resp : TunnelResponse)
deriving Repr, DecidableEq

/-- Outcome of the single upstream forward: a thrown transport error or a
response (of any status) with its headers and body. -/
inductive UpstreamOutcome where
  | throwErr (msg : String)
  | resp (status : Nat) (statusText : String) (headers : List (String × String)) (body : String)
deriving Repr, DecidableEq

/-! ## Worker constants and shared route logic -/

/-- The registry authority address (`authUrl` in every route). -/
def authUrl : String := "https://ohishi-auth.mtamaramu.com/tunnels"

/-- The CORS header object built at the top of `fetch`. -/
def corsHeaders : List (String × String) :=
  [ ("Access-Control-Allow-Origin", "*"),
    ("Access-Control-Allow-Methods", "GET, POST, PUT, DELETE, OPTIONS"),
    ("Access-Control-Allow-Headers", "Content-Type, x-grpc-web, x-user-agent, Authorization"),
    ("Access-Control-Expose-Headers", "grpc-status, grpc-message") ]

/-- The `{'Content-Type': 'application/json'}` entry. -/
def ctJson : List (String × String) := [("Content-Type", "application/json")]

/-- A JSON response with `{'Content-Type': ..., ...corsHeaders}` headers, the
shape every worker-built error/JSON response uses. -/
def jsonResponse (status : Nat) (v : JsonVal) : WResponse :=
  { status := status, statusText := "", headers := ctJson ++ corsHeaders, body := .json v }

/-- A 500 response with `{error, message}` body. -/
def err500 (e m : String) : WResponse :=
  jsonResponse 500 (.obj [("error", .str e), ("message", .str m)])

/-- The message of every 403 response. -/
def forbiddenMessage : String := "このクライアントIDへのアクセスは許可されていません。"

/-- The 403 response each tunnel route returns on an allowlist miss. -/
def forbiddenResponse : WResponse :=
  jsonResponse 403 (.obj [("error", .str "Forbidden"), ("message", .str forbiddenMessage)])

/-- The 404 response when no registry record matches the tunnel id. -/
def notFoundResponse : WResponse :=
  jsonResponse 404 (.obj [("error", .str "Tunnel not found")])

/-- The response relaying a non-ok registry answer on the tunnel routes. -/
def fetchFailResponse (status : Nat) : WResponse :=
  jsonResponse status (.obj [("error", .str "Failed to fetch tunnels")])

/-- The 405 response for `/api/grpc/` remainders in the generic tunnel route. -/
def grpc405Response : WResponse :=
  jsonResponse 405 (.obj [("error", .str "Method Not Allowed"),
    ("message", .str "This gRPC endpoint does not support the requested method")])

/-- Message stand-in for the `TypeError` thrown when `new URL(...)` rejects its
argument. -/
def invalidUrlMessage : String := "Invalid URL"

/-- Message stand-in for the `TypeError` thrown when an override entry has no
`=` and `url.trim()` dereferences `undefined`. -/
def overrideTypeErrorMessage : String := "TypeError: url is undefined"

/-- The registry lookup `fetch(authUrl, {method: GET, headers: request.headers})`. -/
def registryCall (req : Req) : OutboundCall :=
  { url := authUrl, method := "GET", headers := req.headers, body := none }

/-- `env.ALLOWED_CLIENT_IDS.split(',').map(id => id.trim())`. -/
def allowedIds (cfg : String) : List String :=
  (splitOnChar ',' cfg).map jsTrim

/-- The allowlist gate repeated verbatim in the three tunnel routes:
`if (env.ALLOWED_CLIENT_IDS) { ... if (!allowedIds.includes(tunnelId)) return 403 }`.
`true` means the 403 is returned. -/
def accessDenied (cfg : Option String) (tunnelId : String) : Bool :=
  match cfg with
  | none => false
  | some s => if s = "" then false else !((allowedIds s).contains tunnelId)

/-- Scan the `LOCAL_TUNNEL_URLS` entries for the first whose left side trims to
the tunnel id, as the `for (const override of overrides)` loop does.
`malformed` models an entry with no `=` (JS throws on `url.trim()`). -/
inductive OverrideResult where
  | noOverride
  | found (url : String)
  | malformed
deriving Repr, DecidableEq

/-- The override scan loop of the registry route. -/
def lookupOverride : List String → String → OverrideResult
  | [], _ => .noOverride
  | o :: rest, tunnelId =>
    let parts := splitOnChar '=' o
    if jsTrim (parts.headD "") = tunnelId then
      match parts.get? 1 with
      | some u => .found (jsTrim u)
      | none => .malformed
    else lookupOverride rest tunnelId

/-- The base URL the registry route forwards to: `tunnel.tunnelUrl` unless a
truthy `LOCAL_TUNNEL_URLS` has an entry for the id. -/
def overriddenBase (cfg : Option String) (tunnelId base : String) : Except String String :=
  if truthy cfg then
    match lookupOverride (splitOnChar ',' (cfg.getD "")) tunnelId with
    | .noOverride => .ok base
    | .found u => .ok u
    | .malformed => .error overrideTypeErrorMessage
  else .ok base

/-- The sanitized `GET /tunnels` payload (`sanitizedData` in the source):
`tunnelUrl` is intentionally omitted from each record. -/
def sanitizedData (apiResponse : TunnelResponse) : JsonVal :=
  .obj [ ("success", .bool apiResponse.success),
         ("data", .arr (apiResponse.data.map fun t =>
            .obj [ ("clientId", .str t.clientId),
                   ("updatedAt", .num t.updatedAt),
                   ("createdAt", .num t.createdAt) ])),
         ("count", .num apiResponse.count) ]

/-- The match `/^\/tunnel\/([^\/]+)(\/.*)?$/` shared by the three tunnel
routes: the id is the maximal nonempty run of non-slash characters after
`/tunnel/`, the remainder is what follows (empty or starting with `/`).
The fixed sub-routes test the remainder against `/api/registry` and
`/api/invoke` exactly, matching their anchored regexes. -/
def parseTunnelPath (path : String) : Option (String × String) :=
  if strStartsWith path "/tunnel/" then
    let rest := path.toList.drop 8
    let tid := rest.takeWhile (· ≠ '/')
    if tid = [] then none
    else some (String.mk tid, String.mk (rest.drop tid.length))
  else none

/-! ## Route handlers -/

/-- `GET /tunnels`: fetch the registry, sanitize, relay errors. -/
def handleTunnels (req : Req) (reg : RegistryOutcome) : WResponse × List OutboundCall :=
  let trace := [registryCall req]
  match reg with
  | .throwErr m =>
    (jsonResponse 500 (.obj [("error", .str "Internal server error"), ("message", .str m)]),
     trace)
  | .httpErr s st =>
    (jsonResponse s (.obj [ ("error", .str "Failed to fetch tunnels"),
                            ("status", .num (Int.ofNat s)),
                            ("statusText", .str st) ]),
     trace)
  | .ok apiResponse =>
    ({ status := 200, statusText := "",
       headers := ctJson ++ [("Cache-Control", "public, max-age=60")] ++ corsHeaders,
       body := .json (sanitizedData apiResponse) },
     trace)

/-- `GET /tunnel/:id/api/registry`: gate, resolve, apply the local override,
probe `/api/registry` on the base URL, relay the text with CORS headers. -/
def handleRegistryRoute (env : Env) (req : Req) (tunnelId : String)
    (reg : RegistryOutcome) (up : UpstreamOutcome) : WResponse × List OutboundCall :=
  if accessDenied env.ALLOWED_CLIENT_IDS tunnelId then
    (forbiddenResponse, [])
  else
    let trace := [registryCall req]
    match reg with
    | .throwErr m => (err500 "Failed to connect to registry" m, trace)
    | .httpErr s _st => (fetchFailResponse s, trace)
    | .ok apiResponse =>
      match apiResponse.data.find? (fun t => t.clientId == tunnelId) with
      | none => (notFoundResponse, trace)
      | some tunnel =>
        match overriddenBase env.LOCAL_TUNNEL_URLS tunnelId tunnel.tunnelUrl with
        | .error m => (err500 "Failed to connect to registry" m, trace)
        | .ok baseUrl =>
          match parseUrl baseUrl with
          | none => (err500 "Failed to connect to registry" invalidUrlMessage, trace)
          | some u =>
            let targetUrl := setPathname u "/api/registry"
            let call : OutboundCall :=
              { url := urlToString targetUrl, method := "GET",
                headers := [("Accept", "application/json")], body := none }
            match up with
            | .throwErr m => (err500 "Failed to connect to registry" m, trace ++ [call])
            | .resp s st _hs b =>
              ({ status := s, statusText := st, headers := corsHeaders ++ ctJson,
                 body := .text b },
               trace ++ [call])

/-- `POST /tunnel/:id/api/invoke`: gate, resolve, forward the body to
`/api/invoke` with only the `Content-Type` header, relay the text with CORS
headers. -/
def handleInvokeRoute (env : Env) (req : Req) (tunnelId : String)
    (reg : RegistryOutcome) (up : UpstreamOutcome) : WResponse × List OutboundCall :=
  if accessDenied env.ALLOWED_CLIENT_IDS tunnelId then
    (forbiddenResponse, [])
  else
    let trace := [registryCall req]
    match reg with
    | .throwErr m => (err500 "Failed to connect to invoke endpoint" m, trace)
    | .httpErr s _st => (fetchFailResponse s, trace)
    | .ok apiResponse =>
      match apiResponse.data.find? (fun t => t.clientId == tunnelId) with
      | none => (notFoundResponse, trace)
      | some tunnel =>
        match parseUrl tunnel.tunnelUrl with
        | none => (err500 "Failed to connect to invoke endpoint" invalidUrlMessage, trace)
        | some u =>
          let targetUrl := setPathname u "/api/invoke"
          let forwardHeaders :=
            match headerGet req.headers "Content-Type" with
            | some ct => [("Content-Type", ct)]
            | none => []
          let call : OutboundCall :=
            { url := urlToString targetUrl, method := "POST",
              headers := forwardHeaders, body := req.body }
          match up with
          | .throwErr m => (err500 "Failed to connect to invoke endpoint" m, trace ++ [call])
          | .resp s st _hs b =>
            ({ status := s, statusText := st, headers := corsHeaders ++ ctJson,
               body := .text b },
             trace ++ [call])

/-- `ANY /tunnel/:id/*`: 405 for `/api/grpc/` remainders, else gate, resolve,
rewrite path and query onto the tunnel URL, forward method/headers/body, and
pass the upstream response back unchanged. -/
def handleTunnelRoute (env : Env) (req : Req) (tunnelId remainingPath : String)
    (reg : RegistryOutcome) (up : UpstreamOutcome) : WResponse × List OutboundCall :=
  if strStartsWith remainingPath "/api/grpc/" then
    (grpc405Response, [])
  else if accessDenied env.ALLOWED_CLIENT_IDS tunnelId then
    (forbiddenResponse, [])
  else
    let trace := [registryCall req]
    match reg with
    | .throwErr m => (err500 "Failed to connect to tunnel" m, trace)
    | .httpErr s _st => (fetchFailResponse s, trace)
    | .ok apiResponse =>
      match apiResponse.data.find? (fun t => t.clientId == tunnelId) with
      | none => (notFoundResponse, trace)
      | some tunnel =>
        match parseUrl tunnel.tunnelUrl with
        | none => (err500 "Failed to connect to tunnel" invalidUrlMessage, trace)
        | some u =>
          let targetUrl := setSearch (setPathname u remainingPath) req.search
          let call : OutboundCall :=
            { url := urlToString targetUrl, method := req.method,
              headers := req.headers, body := req.body }
          match up with
          | .throwErr m => (err500 "Failed to connect to tunnel" m, trace ++ [call])
          | .resp s st hs b =>
            ({ status := s, statusText := st, headers := hs, body := .stream b },
             trace ++ [call])

/-- The fallback info payload of the default route. -/
def infoBody : JsonVal :=
  .obj [ ("message", .str "Tunnel URL Service"),
         ("version", .str "1.0.0"),
         ("endpoints", .obj [
            ("GET /tunnels", .str "トンネルリストを取得（トンネルURLは非表示）"),
            ("ALL /tunnel/:clientId/*",
             .str "指定されたトンネルにプロキシ接続（全てのHTTPメソッド、パス、クエリパラメータをサポート）") ]),
         ("examples", .arr [
            .str "GET /tunnels",
            .str "GET /tunnel/gowinproc",
            .str "POST /tunnel/gowinproc/api/some-endpoint",
            .str "GET /tunnel/testclient/path/to/resource?query=value" ]),
         ("security", .obj [
            ("note", .str "トンネルURLは外部に公開されません。Auth Workerで管理されています。") ]) ]

/-- The default route: serve a static asset when the binding exists and its
fetch succeeds (`assets = some r`), otherwise the info payload. -/
def handleDefault (env : Env) (assets : Option WResponse) : WResponse × List OutboundCall :=
  match env.ASSETS, assets with
  | true, some r => (r, [])
  | _, _ => (jsonResponse 200 infoBody, [])

/-- The worker's `fetch` entry point, with route precedence as in the source:
OPTIONS preflight, exact `GET /tunnels`, `GET .../api/registry`,
`POST .../api/invoke`, generic `/tunnel/:id/*`, default. -/
def workerFetch (env : Env) (req : Req) (reg : RegistryOutcome) (up : UpstreamOutcome)
    (assets : Option WResponse) : WResponse × List OutboundCall :=
  if req.method = "OPTIONS" then
    ({ status := 200, statusText := "", headers := corsHeaders, body := .empty }, [])
  else if req.path = "/tunnels" ∧ req.method = "GET" then
    handleTunnels req reg
  else
    match parseTunnelPath req.path with
    | some (tunnelId, remainingPath) =>
      if remainingPath = "/api/registry" ∧ req.method = "GET" then
        handleRegistryRoute env req tunnelId reg up
      else if remainingPath = "/api/invoke" ∧ req.method = "POST" then
        handleInvokeRoute env req tunnelId reg up
      else
        handleTunnelRoute env req tunnelId remainingPath reg up
    | none => handleDefault env assets

/-! ## Observation helpers for the claims -/

/-- The machine-readable `error` field of a worker-built JSON body. -/
def errorCodeOf (r : WResponse) : Option String :=
  match r.body with
  | .json (.obj fs) =>
    match fs.find? (fun f => f.1 == "error") with
    | some (_, .str s) => some s
    | _ => none
  | _ => none

/-- Does the response carry `Access-Control-Allow-Origin: *`? -/
def hasCors (r : WResponse) : Bool :=
  r.headers.contains ("Access-Control-Allow-Origin", "*")

/-- The bytes a response body serializes to, when it has any. -/
def bodyBytes (r : WResponse) : Option String :=
  match r.body with
  | .json v => some (serializeJson v)
  | .text s => some s
  | .stream s => some s
  | .empty => none
  | .asset => none

/-- The field names of a JSON object. -/
def topKeys : JsonVal → List String
  | .obj fs => fs.map (·.1)
  | _ => []

/-- The elements of the `data` array of a JSON object. -/
def dataEntries : JsonVal → List JsonVal
  | .obj fs =>
    match fs.find? (fun f => f.1 == "data") with
    | some (_, .arr xs) => xs
    | _ => []
  | _ => []

/-! ## Helper lemmas -/

/-- Dropping the length of the taken prefix is dropping while the predicate
holds. -/
theorem drop_length_takeWhile (p : Char → Bool) (l : List Char) :
    l.drop (l.takeWhile p).length = l.dropWhile p := by
  induction l with
  | nil => rfl
  | cons c cs ih =>
    by_cases h : p c
    · simp [List.takeWhile_cons, List.dropWhile_cons, h, ih]
    · simp [List.takeWhile_cons, List.dropWhile_cons, h]

/-- The head surviving `dropWhile` fails the predicate. -/
theorem dropWhile_head_false (p : Char → Bool) (l : List Char) (c : Char) (cs : List Char)
    (h : l.dropWhile p = c :: cs) : p c = false := by
  induction l with
  | nil => cases h
  | cons a as ih =>
    rw [List.dropWhile_cons] at h
    by_cases hp : p a
    · exact ih (by simpa [hp] using h)
    · simp only [hp, if_neg, Bool.false_eq_true, ite_false, List.cons.injEq] at h
      rw [← h.1]
      exact Bool.not_eq_true _ |>.mp hp

/-- The remainder a tunnel-route match extracts is empty or starts with a
slash (the id swallows every non-slash character). -/
theorem parseTunnelPath_rem {path tid rem : String}
    (h : parseTunnelPath path = some (tid, rem)) :
    rem = "" ∨ strStartsWith rem "/" = true := by
  unfold parseTunnelPath at h
  by_cases hs : strStartsWith path "/tunnel/" = true
  · rw [if_pos hs] at h
    by_cases ht : (path.toList.drop 8).takeWhile (· ≠ '/') = []
    · rw [if_pos ht] at h; cases h
    · rw [if_neg ht] at h
      have hrem : rem =
          String.mk ((path.toList.drop 8).drop
            (((path.toList.drop 8).takeWhile (· ≠ '/')).length)) := by
        injection h with h1
        exact (congrArg Prod.snd h1).symm
      rw [drop_length_takeWhile] at hrem
      cases hd : (path.toList.drop 8).dropWhile (· ≠ '/') with
      | nil => left; rw [hrem, hd]
      | cons c cs =>
        right
        have hc : (c ≠ '/' : Bool) = false := dropWhile_head_false _ _ _ _ hd
        have hc2 : c = '/' := by
          by_contra hne
          simp [hne] at hc
        rw [hrem, hd, hc2]
        simp [strStartsWith, List.isPrefixOf]
  · rw [if_neg hs] at h; cases h

/-- With a non-OPTIONS method and a path matching the tunnel pattern, the
dispatcher lands in one of the three tunnel routes. -/
theorem workerFetch_tunnel (env : Env) (req : Req) (reg : RegistryOutcome)
    (up : UpstreamOutcome) (assets : Option WResponse) {tid rem : String}
    (hm : ¬req.method = "OPTIONS")
    (hp : parseTunnelPath req.path = some (tid, rem)) :
    workerFetch env req reg up assets =
      (if rem = "/api/registry" ∧ req.method = "GET" then
        handleRegistryRoute env req tid reg up
      else if rem = "/api/invoke" ∧ req.method = "POST" then
        handleInvokeRoute env req tid reg up
      else
        handleTunnelRoute env req tid rem reg up) := by
  have hpath : ¬(req.path = "/tunnels" ∧ req.method = "GET") := by
    rintro ⟨h1, _⟩
    rw [h1] at hp
    have hn : parseTunnelPath "/tunnels" = none := by decide
    rw [hn] at hp; cases hp
  unfold workerFetch
  rw [if_neg hm, if_neg hpath, hp]

/-! ## Claims -/

/-- C10: for every non-OPTIONS request whose path matches `/tunnel/{id}` with a
remainder beginning `/api/grpc/`, the worker returns the fixed 405
`Method Not Allowed` response regardless of method, environment (in particular
the allowlist) and oracles, with no outbound call at all. -/
theorem c10_grpc_subpath_guard (env : Env) (req : Req) (reg : RegistryOutcome)
    (up : UpstreamOutcome) (assets : Option WResponse) (tid rem : String)
    (hm : ¬req.method = "OPTIONS")
    (hp : parseTunnelPath req.path = some (tid, rem))
    (hg : strStartsWith rem "/api/grpc/" = true) :
    workerFetch env req reg up assets = (grpc405Response, [])
    ∧ grpc405Response.status = 405
    ∧ errorCodeOf grpc405Response = some "Method Not Allowed" := by
  have hr1 : ¬(rem = "/api/registry" ∧ req.method = "GET") := by
    rintro ⟨h1, _⟩; rw [h1] at hg; exact absurd hg (by decide)
  have hr2 : ¬(rem = "/api/invoke" ∧ req.method = "POST") := by
    rintro ⟨h1, _⟩; rw [h1] at hg; exact absurd hg (by decide)
  refine ⟨?_, rfl, rfl⟩
  rw [workerFetch_tunnel env req reg up assets hm hp, if_neg hr1, if_neg hr2]
  unfold handleTunnelRoute
  rw [if_pos hg]

/-- Witness for C10: `DELETE /tunnel/bob/api/grpc/foo` with `bob` not in the
allowlist still gets the 405, not a 403, and no outbound call is made. -/
theorem c10_grpc_subpath_guard_witness :
    workerFetch ⟨some "alice", none, false⟩
        ⟨"DELETE", "/tunnel/bob/api/grpc/foo", "", [], none⟩
        (.ok ⟨true, [], 0⟩) (.resp 200 "" [] "") none = (grpc405Response, [])
    ∧ grpc405Response.status = 405
    ∧ errorCodeOf grpc405Response = some "Method Not Allowed" :=
  c10_grpc_subpath_guard ⟨some "alice", none, false⟩
    ⟨"DELETE", "/tunnel/bob/api/grpc/foo", "", [], none⟩
    (.ok ⟨true, [], 0⟩) (.resp 200 "" [] "") none
    "bob" "/api/grpc/foo" (by decide) (by decide) (by decide)

/-- C1: the code at the claim's failing input. The claim says a reserved
sub-path reached with an unsupported method must get 405 and never be
generically forwarded; the code only guards remainders beginning `/api/grpc/`,
so `DELETE /tunnel/x/api/invoke` for an allowlisted, resolvable `x` falls
through to generic forwarding: the upstream is called at
`https://real.example/api/invoke` with method DELETE and its status is
relayed, and the response is not a 405. -/
theorem c1_delete_invoke_generically_forwarded :
    ((workerFetch ⟨some "x", none, false⟩
        ⟨"DELETE", "/tunnel/x/api/invoke", "", [], none⟩
        (.ok ⟨true, [⟨"x", "https://real.example", 0, 0⟩], 1⟩)
        (.resp 200 "OK" [("X-Up", "1")] "okbody") none).2.map (fun c => (c.url, c.method))
      = [(authUrl, "GET"), ("https://real.example/api/invoke", "DELETE")])
    ∧ (workerFetch ⟨some "x", none, false⟩
        ⟨"DELETE", "/tunnel/x/api/invoke", "", [], none⟩
        (.ok ⟨true, [⟨"x", "https://real.example", 0, 0⟩], 1⟩)
        (.resp 200 "OK" [("X-Up", "1")] "okbody") none).1.status = 200
    ∧ ¬(workerFetch ⟨some "x", none, false⟩
        ⟨"DELETE", "/tunnel/x/api/invoke", "", [], none⟩
        (.ok ⟨true, [⟨"x", "https://real.example", 0, 0⟩], 1⟩)
        (.resp 200 "OK" [("X-Up", "1")] "okbody") none).1.status = 405 :=
  ⟨by decide, by rfl, by decide⟩

/-- Writing the caller remainder and query onto an endpoint URL replaces its
path and query completely: the result mentions only the endpoint's scheme and
host. -/
theorem proxyTarget_spec (u : UrlModel) (rem q : String)
    (hrem : rem = "" ∨ strStartsWith rem "/" = true)
    (hq : q = "" ∨ strStartsWith q "?" = true) :
    urlToString (setSearch (setPathname u rem) q) =
      u.scheme ++ "://" ++ u.host ++ (if rem = "" then "/" else rem) ++ q := by
  have hsq : (setSearch (setPathname u rem) q).search = q := by
    rcases hq with h2 | h2
    · simp [setSearch, h2]
    · have hqne : ¬q = "" := by rintro rfl; exact absurd h2 (by decide)
      simp [setSearch, h2, hqne]
  have hsp : (setSearch (setPathname u rem) q).path = if rem = "" then "/" else rem := by
    rcases hrem with h | h
    · simp [setSearch, setPathname, h]
    · have hne : ¬rem = "" := by rintro rfl; exact absurd h (by decide)
      simp [setSearch, setPathname, h, hne]
  rw [urlToString, hsq, hsp]
  rfl

/-- C5: on the generic forwarding route, the outbound target URL takes scheme
and host from the resolved endpoint, its path is the caller-supplied remainder
(full replacement — the endpoint's own path never appears), and its query is
the caller's query string verbatim; the method, headers and body are the
inbound ones. -/
theorem c5_proxy_target_full_replacement (env : Env) (req : Req)
    (resp : TunnelResponse) (up : UpstreamOutcome) (assets : Option WResponse)
    (tid rem : String) (tunnel : TunnelData) (u : UrlModel)
    (hm : ¬req.method = "OPTIONS")
    (hp : parseTunnelPath req.path = some (tid, rem))
    (hr1 : ¬(rem = "/api/registry" ∧ req.method = "GET"))
    (hr2 : ¬(rem = "/api/invoke" ∧ req.method = "POST"))
    (hg : strStartsWith rem "/api/grpc/" = false)
    (ha : accessDenied env.ALLOWED_CLIENT_IDS tid = false)
    (hf : resp.data.find? (fun t => t.clientId == tid) = some tunnel)
    (hu : parseUrl tunnel.tunnelUrl = some u)
    (hq : req.search = "" ∨ strStartsWith req.search "?" = true) :
    (workerFetch env req (.ok resp) up assets).2 =
      [registryCall req,
       { url := u.scheme ++ "://" ++ u.host ++ (if rem = "" then "/" else rem) ++ req.search,
         method := req.method, headers := req.headers, body := req.body }] := by
  rw [workerFetch_tunnel env req (.ok resp) up assets hm hp, if_neg hr1, if_neg hr2]
  unfold handleTunnelRoute
  rw [if_neg (by simp [hg]), if_neg (by simp [ha])]
  dsimp only
  rw [hf]
  dsimp only
  rw [hu]
  dsimp only
  rw [proxyTarget_spec u rem req.search (parseTunnelPath_rem hp) hq]
  cases up <;> rfl

/-- Witness for C5, the spec's own example: inbound
`GET /tunnel/X/path?a=1&b=2` with resolved endpoint `https://up.example/base`
forwards to `https://up.example/path?a=1&b=2`. -/
theorem c5_proxy_target_full_replacement_witness :
    (workerFetch ⟨none, none, false⟩
        ⟨"GET", "/tunnel/X/path", "?a=1&b=2", [], none⟩
        (.ok ⟨true, [⟨"X", "https://up.example/base", 0, 0⟩], 1⟩)
        (.resp 200 "OK" [] "ok") none).2 =
      [registryCall ⟨"GET", "/tunnel/X/path", "?a=1&b=2", [], none⟩,
       { url := "https://up.example/path?a=1&b=2", method := "GET",
         headers := [], body := none }] := by
  have h := c5_proxy_target_full_replacement ⟨none, none, false⟩
    ⟨"GET", "/tunnel/X/path", "?a=1&b=2", [], none⟩
    ⟨true, [⟨"X", "https://up.example/base", 0, 0⟩], 1⟩
    (.resp 200 "OK" [] "ok") none
    "X" "/path" ⟨"X", "https://up.example/base", 0, 0⟩
    ⟨"https", "up.example", "/base", ""⟩
    (by decide) (by decide) (by decide) (by decide) (by decide) (by decide)
    (by decide) (by decide) (by decide)
  rw [h]
  decide

/-- No record object produced by the sanitizer mentions a `tunnelUrl` field. -/
theorem mentionsKeyArr_sanitized (l : List TunnelData) :
    mentionsKeyArr "tunnelUrl" (l.map fun t =>
      JsonVal.obj [ ("clientId", .str t.clientId), ("updatedAt", .num t.updatedAt),
                    ("createdAt", .num t.createdAt) ]) = false := by
  induction l with
  | nil => rfl
  | cons t ts ih =>
    simp only [List.map_cons, mentionsKeyArr, ih]
    rfl

/-- C6: `GET /tunnels` on an ok registry snapshot serializes exactly the
sanitized payload, two requests against the same snapshot produce byte-identical
bodies (whatever the environments, headers or other oracles), the payload never
mentions a `tunnelUrl` field anywhere, and every record carries exactly the
`clientId`, `updatedAt`, `createdAt` fields. -/
theorem c6_tunnels_sanitized_idempotent (env env2 : Env) (req req2 : Req)
    (resp : TunnelResponse) (up up2 : UpstreamOutcome)
    (assets assets2 : Option WResponse)
    (hp : req.path = "/tunnels") (hm : req.method = "GET")
    (hp2 : req2.path = "/tunnels") (hm2 : req2.method = "GET") :
    bodyBytes (workerFetch env req (.ok resp) up assets).1 =
      some (serializeJson (sanitizedData resp))
    ∧ bodyBytes (workerFetch env2 req2 (.ok resp) up2 assets2).1 =
      bodyBytes (workerFetch env req (.ok resp) up assets).1
    ∧ mentionsKey "tunnelUrl" (sanitizedData resp) = false
    ∧ ∀ v ∈ dataEntries (sanitizedData resp),
        topKeys v = ["clientId", "updatedAt", "createdAt"] := by
  have hred : ∀ (e : Env) (r : Req) (u : UpstreamOutcome) (a : Option WResponse),
      r.path = "/tunnels" → r.method = "GET" →
      workerFetch e r (.ok resp) u a = handleTunnels r (.ok resp) := by
    intro e r u a h1 h2
    unfold workerFetch
    rw [if_neg (by rw [h2]; decide), if_pos ⟨h1, h2⟩]
  refine ⟨?_, ?_, ?_, ?_⟩
  · rw [hred env req up assets hp hm]; rfl
  · rw [hred env req up assets hp hm, hred env2 req2 up2 assets2 hp2 hm2]; rfl
  · have harr := mentionsKeyArr_sanitized resp.data
    simp only [sanitizedData, mentionsKey, mentionsKeyFields, harr]
    rfl
  · intro v hv
    have hde : dataEntries (sanitizedData resp) = resp.data.map (fun t =>
        JsonVal.obj [ ("clientId", .str t.clientId), ("updatedAt", .num t.updatedAt),
                      ("createdAt", .num t.createdAt) ]) := rfl
    rw [hde] at hv
    rcases List.mem_map.mp hv with ⟨t, _, rfl⟩
    rfl

/-- Witness for C6 at a one-record snapshot: the serialized body and the
sanitized field list, computed. -/
theorem c6_tunnels_sanitized_idempotent_witness :
    bodyBytes (workerFetch ⟨none, none, false⟩ ⟨"GET", "/tunnels", "", [], none⟩
        (.ok ⟨true, [⟨"gowinproc", "https://hidden.example", 5, 3⟩], 1⟩)
        (.resp 200 "" [] "") none).1 =
      some (serializeJson (sanitizedData ⟨true, [⟨"gowinproc", "https://hidden.example", 5, 3⟩], 1⟩))
    ∧ mentionsKey "tunnelUrl"
        (sanitizedData ⟨true, [⟨"gowinproc", "https://hidden.example", 5, 3⟩], 1⟩) = false := by
  have h := c6_tunnels_sanitized_idempotent ⟨none, none, false⟩ ⟨none, none, false⟩
    ⟨"GET", "/tunnels", "", [], none⟩ ⟨"GET", "/tunnels", "", [], none⟩
    ⟨true, [⟨"gowinproc", "https://hidden.example", 5, 3⟩], 1⟩
    (.resp 200 "" [] "") (.resp 200 "" [] "") none none
    (by decide) (by decide) (by decide) (by decide)
  exact ⟨h.1, h.2.2.1⟩

/-- Each tunnel route (outside the grpc guard) answers the fixed 403 with an
empty outbound trace when the gate denies. -/
theorem routes_denied (env : Env) (req : Req) (reg : RegistryOutcome)
    (up : UpstreamOutcome) (tid rem : String)
    (hd : accessDenied env.ALLOWED_CLIENT_IDS tid = true)
    (hg : strStartsWith rem "/api/grpc/" = false) :
    handleRegistryRoute env req tid reg up = (forbiddenResponse, [])
    ∧ handleInvokeRoute env req tid reg up = (forbiddenResponse, [])
    ∧ handleTunnelRoute env req tid rem reg up = (forbiddenResponse, []) := by
  refine ⟨?_, ?_, ?_⟩
  · unfold handleRegistryRoute; rw [if_pos hd]
  · unfold handleInvokeRoute; rw [if_pos hd]
  · unfold handleTunnelRoute; rw [if_neg (by simp [hg]), if_pos hd]

/-- Each tunnel route (outside the grpc guard) opens its outbound trace with
the registry call when the gate passes. -/
theorem routes_trace_head (env : Env) (req : Req) (reg : RegistryOutcome)
    (up : UpstreamOutcome) (tid rem : String)
    (hd : accessDenied env.ALLOWED_CLIENT_IDS tid = false)
    (hg : strStartsWith rem "/api/grpc/" = false) :
    (∃ t, (handleRegistryRoute env req tid reg up).2 = registryCall req :: t)
    ∧ (∃ t, (handleInvokeRoute env req tid reg up).2 = registryCall req :: t)
    ∧ (∃ t, (handleTunnelRoute env req tid rem reg up).2 = registryCall req :: t) := by
  refine ⟨?_, ?_, ?_⟩
  · unfold handleRegistryRoute
    rw [if_neg (by simp [hd])]
    dsimp only
    repeat' split
    all_goals exact ⟨_, rfl⟩
  · unfold handleInvokeRoute
    rw [if_neg (by simp [hd])]
    dsimp only
    repeat' split
    all_goals exact ⟨_, rfl⟩
  · unfold handleTunnelRoute
    rw [if_neg (by simp [hg]), if_neg (by simp [hd])]
    dsimp only
    repeat' split
    all_goals exact ⟨_, rfl⟩

/-- C8: the access decision is a pure function of identity and allowlist:
unset or empty configuration allows every identity; a non-empty configuration
allows exactly the members after trimming each comma-separated entry; and on
every tunnel route (outside the grpc guard) the worker answers with its 403
response and an empty outbound trace exactly when that predicate denies,
whatever the oracles. -/
theorem c8_access_decision_pure :
    (∀ tid, accessDenied none tid = false)
    ∧ (∀ tid, accessDenied (some "") tid = false)
    ∧ (∀ s tid, ¬s = "" → accessDenied (some s) tid = !((allowedIds s).contains tid))
    ∧ ∀ (env : Env) (req : Req) (reg : RegistryOutcome) (up : UpstreamOutcome)
        (assets : Option WResponse) (tid rem : String),
        ¬req.method = "OPTIONS" →
        parseTunnelPath req.path = some (tid, rem) →
        strStartsWith rem "/api/grpc/" = false →
        (workerFetch env req reg up assets = (forbiddenResponse, [])
          ↔ accessDenied env.ALLOWED_CLIENT_IDS tid = true) := by
  refine ⟨fun tid => rfl, fun tid => by simp [accessDenied],
    fun s tid hs => by simp [accessDenied, hs], ?_⟩
  intro env req reg up assets tid rem hm hp hg
  rw [workerFetch_tunnel env req reg up assets hm hp]
  constructor
  · intro h
    by_contra hden
    have hd : accessDenied env.ALLOWED_CLIENT_IDS tid = false := by
      cases hx : accessDenied env.ALLOWED_CLIENT_IDS tid
      · rfl
      · exact absurd hx hden
    have ht := routes_trace_head env req reg up tid rem hd hg
    by_cases h1 : rem = "/api/registry" ∧ req.method = "GET"
    · rw [if_pos h1] at h
      rcases ht.1 with ⟨t, htr⟩
      rw [h] at htr; simp at htr
    · rw [if_neg h1] at h
      by_cases h2 : rem = "/api/invoke" ∧ req.method = "POST"
      · rw [if_pos h2] at h
        rcases ht.2.1 with ⟨t, htr⟩
        rw [h] at htr; simp at htr
      · rw [if_neg h2] at h
        rcases ht.2.2 with ⟨t, htr⟩
        rw [h] at htr; simp at htr
  · intro hd
    have hr := routes_denied env req reg up tid rem hd hg
    by_cases h1 : rem = "/api/registry" ∧ req.method = "GET"
    · rw [if_pos h1]; exact hr.1
    · rw [if_neg h1]
      by_cases h2 : rem = "/api/invoke" ∧ req.method = "POST"
      · rw [if_pos h2]; exact hr.2.1
      · rw [if_neg h2]; exact hr.2.2

/-- Witness for C8: the pure predicate at concrete configurations, and the
handler equivalence at identity `bob` against allowlist `alice`. -/
theorem c8_access_decision_pure_witness :
    accessDenied none "bob" = false
    ∧ accessDenied (some "") "bob" = false
    ∧ accessDenied (some "alice, bob") "bob" = !((allowedIds "alice, bob").contains "bob")
    ∧ (workerFetch ⟨some "alice", none, false⟩ ⟨"GET", "/tunnel/bob/x", "", [], none⟩
         (.ok ⟨true, [], 0⟩) (.resp 200 "" [] "") none = (forbiddenResponse, [])
        ↔ accessDenied (some "alice") "bob" = true) :=
  ⟨c8_access_decision_pure.1 "bob", c8_access_decision_pure.2.1 "bob",
   c8_access_decision_pure.2.2.1 "alice, bob" "bob" (by decide),
   c8_access_decision_pure.2.2.2 ⟨some "alice", none, false⟩
     ⟨"GET", "/tunnel/bob/x", "", [], none⟩ (.ok ⟨true, [], 0⟩) (.resp 200 "" [] "")
     none "bob" "/x" (by decide) (by decide) (by decide)⟩

/-- C3 counterexample: with allowlist `alice`, the non-member identity `bob`
requesting `/tunnel/bob/api/grpc/foo` is answered 405 by the grpc guard — not
403 — so not every route under `/tunnel/:id/*` returns 403 for a non-member;
and where the 403 is returned (path `/tunnel/bob/other`) its code string is
`Forbidden`, not the claimed `forbidden`. -/
theorem c3_counterexample_grpc_guard_before_allowlist :
    (workerFetch ⟨some "alice", none, false⟩
        ⟨"GET", "/tunnel/bob/api/grpc/foo", "", [], none⟩
        (.ok ⟨true, [], 0⟩) (.resp 200 "" [] "") none).1.status = 405
    ∧ ¬(workerFetch ⟨some "alice", none, false⟩
        ⟨"GET", "/tunnel/bob/api/grpc/foo", "", [], none⟩
        (.ok ⟨true, [], 0⟩) (.resp 200 "" [] "") none).1.status = 403
    ∧ errorCodeOf (workerFetch ⟨some "alice", none, false⟩
        ⟨"GET", "/tunnel/bob/other", "", [], none⟩
        (.ok ⟨true, [], 0⟩) (.resp 200 "" [] "") none).1 = some "Forbidden"
    ∧ ¬errorCodeOf (workerFetch ⟨some "alice", none, false⟩
        ⟨"GET", "/tunnel/bob/other", "", [], none⟩
        (.ok ⟨true, [], 0⟩) (.resp 200 "" [] "") none).1 = some "forbidden" :=
  ⟨by rfl, by decide, by rfl, by decide⟩

/-- C3 (amended): when the allowlist is non-empty and the identity is not a
member, every tunnel route whose remainder is outside the grpc guard answers
the fixed 403 response — error code `Forbidden`, distinct from the not-found
code — with an empty outbound trace, so the registry authority is never
contacted. -/
theorem c3_forbidden_no_registry_call (env : Env) (req : Req) (reg : RegistryOutcome)
    (up : UpstreamOutcome) (assets : Option WResponse) (tid rem s : String)
    (hm : ¬req.method = "OPTIONS")
    (hp : parseTunnelPath req.path = some (tid, rem))
    (hg : strStartsWith rem "/api/grpc/" = false)
    (hcfg : env.ALLOWED_CLIENT_IDS = some s) (hs : ¬s = "")
    (hmem : (allowedIds s).contains tid = false) :
    workerFetch env req reg up assets = (forbiddenResponse, [])
    ∧ forbiddenResponse.status = 403
    ∧ errorCodeOf forbiddenResponse = some "Forbidden"
    ∧ ¬errorCodeOf forbiddenResponse = errorCodeOf notFoundResponse := by
  have hd : accessDenied env.ALLOWED_CLIENT_IDS tid = true := by
    rw [hcfg]
    unfold accessDenied
    dsimp only
    rw [if_neg hs, hmem]
    rfl
  refine ⟨?_, rfl, rfl, by decide⟩
  rw [workerFetch_tunnel env req reg up assets hm hp]
  have hr := routes_denied env req reg up tid rem hd hg
  by_cases h1 : rem = "/api/registry" ∧ req.method = "GET"
  · rw [if_pos h1]; exact hr.1
  · rw [if_neg h1]
    by_cases h2 : rem = "/api/invoke" ∧ req.method = "POST"
    · rw [if_pos h2]; exact hr.2.1
    · rw [if_neg h2]; exact hr.2.2

/-- Witness for C3 (amended) at `POST /tunnel/bob/api/invoke` with allowlist
`alice`: the 403 is returned and no outbound call is made. -/
theorem c3_forbidden_no_registry_call_witness :
    workerFetch ⟨some "alice", none, false⟩ ⟨"POST", "/tunnel/bob/api/invoke", "", [], none⟩
        (.ok ⟨true, [], 0⟩) (.resp 200 "" [] "") none = (forbiddenResponse, [])
    ∧ forbiddenResponse.status = 403
    ∧ errorCodeOf forbiddenResponse = some "Forbidden"
    ∧ ¬errorCodeOf forbiddenResponse = errorCodeOf notFoundResponse :=
  c3_forbidden_no_registry_call ⟨some "alice", none, false⟩
    ⟨"POST", "/tunnel/bob/api/invoke", "", [], none⟩ (.ok ⟨true, [], 0⟩)
    (.resp 200 "" [] "") none "bob" "/api/invoke" "alice"
    (by decide) (by decide) (by decide) (by decide) (by decide) (by decide)

/-- Each tunnel route with the gate passed and an ok snapshot lacking the id
answers the fixed 404 having called only the registry. -/
theorem routes_not_found (env : Env) (req : Req) (resp : TunnelResponse)
    (up : UpstreamOutcome) (tid rem : String)
    (hd : accessDenied env.ALLOWED_CLIENT_IDS tid = false)
    (hg : strStartsWith rem "/api/grpc/" = false)
    (hf : resp.data.find? (fun t => t.clientId == tid) = none) :
    handleRegistryRoute env req tid (.ok resp) up = (notFoundResponse, [registryCall req])
    ∧ handleInvokeRoute env req tid (.ok resp) up = (notFoundResponse, [registryCall req])
    ∧ handleTunnelRoute env req tid rem (.ok resp) up = (notFoundResponse, [registryCall req]) := by
  refine ⟨?_, ?_, ?_⟩
  · unfold handleRegistryRoute
    rw [if_neg (by simp [hd])]
    dsimp only
    rw [hf]
  · unfold handleInvokeRoute
    rw [if_neg (by simp [hd])]
    dsimp only
    rw [hf]
  · unfold handleTunnelRoute
    rw [if_neg (by simp [hg]), if_neg (by simp [hd])]
    dsimp only
    rw [hf]

/-- C7 (amended): when no registry record's `clientId` exactly equals the
requested identity, every resolving route answers 404 with error code
`Tunnel not found`, and the only outbound call made is the registry lookup —
no tunnel endpoint is ever contacted. -/
theorem c7_not_found_no_upstream_call (env : Env) (req : Req)
    (resp : TunnelResponse) (up : UpstreamOutcome) (assets : Option WResponse)
    (tid rem : String)
    (hm : ¬req.method = "OPTIONS")
    (hp : parseTunnelPath req.path = some (tid, rem))
    (hg : strStartsWith rem "/api/grpc/" = false)
    (hd : accessDenied env.ALLOWED_CLIENT_IDS tid = false)
    (hf : resp.data.find? (fun t => t.clientId == tid) = none) :
    workerFetch env req (.ok resp) up assets = (notFoundResponse, [registryCall req])
    ∧ notFoundResponse.status = 404
    ∧ errorCodeOf notFoundResponse = some "Tunnel not found"
    ∧ ∀ c ∈ [registryCall req], c.url = authUrl := by
  refine ⟨?_, rfl, rfl, by intro c hc; rw [List.mem_singleton.mp hc]; rfl⟩
  rw [workerFetch_tunnel env req (.ok resp) up assets hm hp]
  have hr := routes_not_found env req resp up tid rem hd hg hf
  by_cases h1 : rem = "/api/registry" ∧ req.method = "GET"
  · rw [if_pos h1]; exact hr.1
  · rw [if_neg h1]
    by_cases h2 : rem = "/api/invoke" ∧ req.method = "POST"
    · rw [if_pos h2]; exact hr.2.1
    · rw [if_neg h2]; exact hr.2.2

/-- Witness for C7 (amended): identity `x` absent from a snapshot holding only
`y`, on the generic route. -/
theorem c7_not_found_no_upstream_call_witness :
    workerFetch ⟨none, none, false⟩ ⟨"GET", "/tunnel/x/foo", "", [], none⟩
        (.ok ⟨true, [⟨"y", "https://u.example", 0, 0⟩], 1⟩) (.resp 200 "" [] "") none
      = (notFoundResponse, [registryCall ⟨"GET", "/tunnel/x/foo", "", [], none⟩])
    ∧ notFoundResponse.status = 404
    ∧ errorCodeOf notFoundResponse = some "Tunnel not found"
    ∧ ∀ c ∈ [registryCall (⟨"GET", "/tunnel/x/foo", "", [], none⟩ : Req)], c.url = authUrl :=
  c7_not_found_no_upstream_call ⟨none, none, false⟩ ⟨"GET", "/tunnel/x/foo", "", [], none⟩
    ⟨true, [⟨"y", "https://u.example", 0, 0⟩], 1⟩ (.resp 200 "" [] "") none
    "x" "/foo" (by decide) (by decide) (by decide) (by decide) (by decide)

/-- C7 counterexample: at a concrete absent identity the response is indeed a
404, but its machine-readable code is the string `Tunnel not found`, not the
claimed `tunnel_not_found`. -/
theorem c7_counterexample_not_found_code_string :
    (workerFetch ⟨none, none, false⟩ ⟨"GET", "/tunnel/absent/foo", "", [], none⟩
        (.ok ⟨true, [⟨"y", "https://u.example", 0, 0⟩], 1⟩) (.resp 200 "" [] "") none).1.status = 404
    ∧ errorCodeOf (workerFetch ⟨none, none, false⟩ ⟨"GET", "/tunnel/absent/foo", "", [], none⟩
        (.ok ⟨true, [⟨"y", "https://u.example", 0, 0⟩], 1⟩) (.resp 200 "" [] "") none).1
      = some "Tunnel not found"
    ∧ ¬errorCodeOf (workerFetch ⟨none, none, false⟩ ⟨"GET", "/tunnel/absent/foo", "", [], none⟩
        (.ok ⟨true, [⟨"y", "https://u.example", 0, 0⟩], 1⟩) (.resp 200 "" [] "") none).1
      = some "tunnel_not_found" :=
  ⟨by rfl, by rfl, by decide⟩

/-- C9 (amended): on the generic forwarding route a transport-level failure of
the outbound call yields 500 with error `Failed to connect to tunnel` and the
thrown message, while an upstream response of any status — 2xx or not — is
relayed back with its original status, statusText, headers and body, never
converted to a 500. -/
theorem c9_transport_500_relay_non2xx (env : Env) (req : Req)
    (resp : TunnelResponse) (assets : Option WResponse)
    (tid rem : String) (tunnel : TunnelData) (u : UrlModel)
    (hm : ¬req.method = "OPTIONS")
    (hp : parseTunnelPath req.path = some (tid, rem))
    (hr1 : ¬(rem = "/api/registry" ∧ req.method = "GET"))
    (hr2 : ¬(rem = "/api/invoke" ∧ req.method = "POST"))
    (hg : strStartsWith rem "/api/grpc/" = false)
    (ha : accessDenied env.ALLOWED_CLIENT_IDS tid = false)
    (hf : resp.data.find? (fun t => t.clientId == tid) = some tunnel)
    (hu : parseUrl tunnel.tunnelUrl = some u) :
    (∀ m, (workerFetch env req (.ok resp) (.throwErr m) assets).1 =
        err500 "Failed to connect to tunnel" m
      ∧ (err500 "Failed to connect to tunnel" m).status = 500
      ∧ errorCodeOf (err500 "Failed to connect to tunnel" m) =
          some "Failed to connect to tunnel")
    ∧ ∀ s st hs b, (workerFetch env req (.ok resp) (.resp s st hs b) assets).1 =
        { status := s, statusText := st, headers := hs, body := .stream b } := by
  constructor
  · intro m
    refine ⟨?_, rfl, rfl⟩
    rw [workerFetch_tunnel env req (.ok resp) (.throwErr m) assets hm hp,
      if_neg hr1, if_neg hr2]
    unfold handleTunnelRoute
    rw [if_neg (by simp [hg]), if_neg (by simp [ha])]
    dsimp only
    rw [hf]
    dsimp only
    rw [hu]
  · intro s st hs2 b
    rw [workerFetch_tunnel env req (.ok resp) (.resp s st hs2 b) assets hm hp,
      if_neg hr1, if_neg hr2]
    unfold handleTunnelRoute
    rw [if_neg (by simp [hg]), if_neg (by simp [ha])]
    dsimp only
    rw [hf]
    dsimp only
    rw [hu]

/-- Witness for C9 (amended): a thrown transport error becomes the 500, and an
upstream 503 is relayed as a 503. -/
theorem c9_transport_500_relay_non2xx_witness :
    ((workerFetch ⟨none, none, false⟩ ⟨"GET", "/tunnel/x/foo", "", [], none⟩
        (.ok ⟨true, [⟨"x", "https://u.example", 0, 0⟩], 1⟩) (.throwErr "boom") none).1 =
      err500 "Failed to connect to tunnel" "boom"
      ∧ (err500 "Failed to connect to tunnel" "boom").status = 500
      ∧ errorCodeOf (err500 "Failed to connect to tunnel" "boom") =
          some "Failed to connect to tunnel")
    ∧ (workerFetch ⟨none, none, false⟩ ⟨"GET", "/tunnel/x/foo", "", [], none⟩
        (.ok ⟨true, [⟨"x", "https://u.example", 0, 0⟩], 1⟩)
        (.resp 503 "Service Unavailable" [("X-Up", "1")] "down") none).1 =
      { status := 503, statusText := "Service Unavailable",
        headers := [("X-Up", "1")], body := .stream "down" } :=
  ⟨(c9_transport_500_relay_non2xx ⟨none, none, false⟩ ⟨"GET", "/tunnel/x/foo", "", [], none⟩
      ⟨true, [⟨"x", "https://u.example", 0, 0⟩], 1⟩ none "x" "/foo"
      ⟨"x", "https://u.example", 0, 0⟩ ⟨"https", "u.example", "/", ""⟩
      (by decide) (by decide) (by decide) (by decide) (by decide) (by decide)
      (by decide) (by decide)).1 "boom",
   (c9_transport_500_relay_non2xx ⟨none, none, false⟩ ⟨"GET", "/tunnel/x/foo", "", [], none⟩
      ⟨true, [⟨"x", "https://u.example", 0, 0⟩], 1⟩ none "x" "/foo"
      ⟨"x", "https://u.example", 0, 0⟩ ⟨"https", "u.example", "/", ""⟩
      (by decide) (by decide) (by decide) (by decide) (by decide) (by decide)
      (by decide) (by decide)).2 503 "Service Unavailable" [("X-Up", "1")] "down"⟩

/-- C9 counterexample: the transport-failure 500's machine-readable code is
`Failed to connect to tunnel`, not the claimed `connection_failed`. -/
theorem c9_counterexample_connection_failed_code_string :
    (workerFetch ⟨none, none, false⟩ ⟨"GET", "/tunnel/x/foo", "", [], none⟩
        (.ok ⟨true, [⟨"x", "https://u.example", 0, 0⟩], 1⟩) (.throwErr "boom") none).1.status = 500
    ∧ errorCodeOf (workerFetch ⟨none, none, false⟩ ⟨"GET", "/tunnel/x/foo", "", [], none⟩
        (.ok ⟨true, [⟨"x", "https://u.example", 0, 0⟩], 1⟩) (.throwErr "boom") none).1
      = some "Failed to connect to tunnel"
    ∧ ¬errorCodeOf (workerFetch ⟨none, none, false⟩ ⟨"GET", "/tunnel/x/foo", "", [], none⟩
        (.ok ⟨true, [⟨"x", "https://u.example", 0, 0⟩], 1⟩) (.throwErr "boom") none).1
      = some "connection_failed" :=
  ⟨by rfl, by rfl, by decide⟩

/-- C4 counterexample: with override `x=http://localhost:9` configured, a
`POST /tunnel/x/api/invoke` for resolvable `x` still forwards to the
registry-provided endpoint `https://real.example/api/invoke`, not to the
override. -/
theorem c4_counterexample_invoke_ignores_override :
    ((workerFetch ⟨none, some "x=http://localhost:9", false⟩
        ⟨"POST", "/tunnel/x/api/invoke", "", [], none⟩
        (.ok ⟨true, [⟨"x", "https://real.example", 0, 0⟩], 1⟩)
        (.resp 200 "" [] "") none).2.map (fun c => c.url)) =
      [authUrl, "https://real.example/api/invoke"]
    ∧ ¬((workerFetch ⟨none, some "x=http://localhost:9", false⟩
        ⟨"POST", "/tunnel/x/api/invoke", "", [], none⟩
        (.ok ⟨true, [⟨"x", "https://real.example", 0, 0⟩], 1⟩)
        (.resp 200 "" [] "") none).2.map (fun c => c.url)) =
      [authUrl, "http://localhost:9/api/invoke"] :=
  ⟨by decide, by decide⟩

/-- C4 (amended): the `LOCAL_TUNNEL_URLS` override is consulted only on the
registry probe route, where a configured entry for the identity replaces the
registry-provided endpoint unconditionally; the invoke route and the generic
forwarding route always forward to the registry-provided endpoint, whatever
override configuration is present. -/
theorem c4_override_only_on_registry_route :
    (∀ (env : Env) (req : Req) (resp : TunnelResponse) (up : UpstreamOutcome)
       (assets : Option WResponse) (tid ustr : String) (tunnel : TunnelData) (u : UrlModel),
       req.method = "GET" →
       parseTunnelPath req.path = some (tid, "/api/registry") →
       accessDenied env.ALLOWED_CLIENT_IDS tid = false →
       resp.data.find? (fun t => t.clientId == tid) = some tunnel →
       truthy env.LOCAL_TUNNEL_URLS = true →
       lookupOverride (splitOnChar ',' (env.LOCAL_TUNNEL_URLS.getD "")) tid = .found ustr →
       parseUrl ustr = some u →
       (workerFetch env req (.ok resp) up assets).2.map (fun c => c.url) =
         [authUrl, urlToString (setPathname u "/api/registry")])
    ∧ (∀ (env : Env) (req : Req) (resp : TunnelResponse) (up : UpstreamOutcome)
       (assets : Option WResponse) (tid : String) (tunnel : TunnelData) (u : UrlModel),
       req.method = "POST" →
       parseTunnelPath req.path = some (tid, "/api/invoke") →
       accessDenied env.ALLOWED_CLIENT_IDS tid = false →
       resp.data.find? (fun t => t.clientId == tid) = some tunnel →
       parseUrl tunnel.tunnelUrl = some u →
       (workerFetch env req (.ok resp) up assets).2.map (fun c => c.url) =
         [authUrl, urlToString (setPathname u "/api/invoke")])
    ∧ (∀ (env : Env) (req : Req) (resp : TunnelResponse) (up : UpstreamOutcome)
       (assets : Option WResponse) (tid rem : String) (tunnel : TunnelData) (u : UrlModel),
       ¬req.method = "OPTIONS" →
       parseTunnelPath req.path = some (tid, rem) →
       ¬(rem = "/api/registry" ∧ req.method = "GET") →
       ¬(rem = "/api/invoke" ∧ req.method = "POST") →
       strStartsWith rem "/api/grpc/" = false →
       accessDenied env.ALLOWED_CLIENT_IDS tid = false →
       resp.data.find? (fun t => t.clientId == tid) = some tunnel →
       parseUrl tunnel.tunnelUrl = some u →
       (workerFetch env req (.ok resp) up assets).2.map (fun c => c.url) =
         [authUrl, urlToString (setSearch (setPathname u rem) req.search)]) := by
  refine ⟨?_, ?_, ?_⟩
  · intro env req resp up assets tid ustr tunnel u hmg hp ha hf htr hlk hu
    have hob : overriddenBase env.LOCAL_TUNNEL_URLS tid tunnel.tunnelUrl = .ok ustr := by
      unfold overriddenBase
      rw [if_pos htr, hlk]
    rw [workerFetch_tunnel env req (.ok resp) up assets (by rw [hmg]; decide) hp,
      if_pos ⟨rfl, hmg⟩]
    unfold handleRegistryRoute
    rw [if_neg (by simp [ha])]
    dsimp only
    rw [hf]
    dsimp only
    rw [hob]
    dsimp only
    rw [hu]
    cases up <;> rfl
  · intro env req resp up assets tid tunnel u hmp hp ha hf hu
    rw [workerFetch_tunnel env req (.ok resp) up assets (by rw [hmp]; decide) hp,
      if_neg (by rintro ⟨h, _⟩; exact absurd h (by decide)), if_pos ⟨rfl, hmp⟩]
    unfold handleInvokeRoute
    rw [if_neg (by simp [ha])]
    dsimp only
    rw [hf]
    dsimp only
    rw [hu]
    cases up <;> rfl
  · intro env req resp up assets tid rem tunnel u hm hp hr1 hr2 hg ha hf hu
    rw [workerFetch_tunnel env req (.ok resp) up assets hm hp, if_neg hr1, if_neg hr2]
    unfold handleTunnelRoute
    rw [if_neg (by simp [hg]), if_neg (by simp [ha])]
    dsimp only
    rw [hf]
    dsimp only
    rw [hu]
    cases up <;> rfl

/-- Witness for C4 (amended): the registry route honours the override for `x`;
the invoke and generic routes ignore the very same configuration. -/
theorem c4_override_only_on_registry_route_witness :
    ((workerFetch ⟨none, some "x=http://localhost:9", false⟩
        ⟨"GET", "/tunnel/x/api/registry", "", [], none⟩
        (.ok ⟨true, [⟨"x", "https://real.example", 0, 0⟩], 1⟩)
        (.resp 200 "" [] "") none).2.map (fun c => c.url) =
      [authUrl, "http://localhost:9/api/registry"])
    ∧ ((workerFetch ⟨none, some "x=http://localhost:9", false⟩
        ⟨"POST", "/tunnel/x/api/invoke", "", [], none⟩
        (.ok ⟨true, [⟨"x", "https://real.example", 0, 0⟩], 1⟩)
        (.resp 200 "" [] "") none).2.map (fun c => c.url) =
      [authUrl, "https://real.example/api/invoke"])
    ∧ ((workerFetch ⟨none, some "x=http://localhost:9", false⟩
        ⟨"GET", "/tunnel/x/data", "?q=1", [], none⟩
        (.ok ⟨true, [⟨"x", "https://real.example", 0, 0⟩], 1⟩)
        (.resp 200 "" [] "") none).2.map (fun c => c.url) =
      [authUrl, "https://real.example/data?q=1"]) := by
  refine ⟨?_, ?_, ?_⟩
  · have h := c4_override_only_on_registry_route.1
      ⟨none, some "x=http://localhost:9", false⟩
      ⟨"GET", "/tunnel/x/api/registry", "", [], none⟩
      ⟨true, [⟨"x", "https://real.example", 0, 0⟩], 1⟩ (.resp 200 "" [] "") none
      "x" "http://localhost:9" ⟨"x", "https://real.example", 0, 0⟩
      ⟨"http", "localhost:9", "/", ""⟩
      (by decide) (by decide) (by decide) (by decide) (by decide) (by decide) (by decide)
    rw [h]; decide
  · have h := c4_override_only_on_registry_route.2.1
      ⟨none, some "x=http://localhost:9", false⟩
      ⟨"POST", "/tunnel/x/api/invoke", "", [], none⟩
      ⟨true, [⟨"x", "https://real.example", 0, 0⟩], 1⟩ (.resp 200 "" [] "") none
      "x" ⟨"x", "https://real.example", 0, 0⟩ ⟨"https", "real.example", "/", ""⟩
      (by decide) (by decide) (by decide) (by decide) (by decide)
    rw [h]; decide
  · have h := c4_override_only_on_registry_route.2.2
      ⟨none, some "x=http://localhost:9", false⟩
      ⟨"GET", "/tunnel/x/data", "?q=1", [], none⟩
      ⟨true, [⟨"x", "https://real.example", 0, 0⟩], 1⟩ (.resp 200 "" [] "") none
      "x" "/data" ⟨"x", "https://real.example", 0, 0⟩ ⟨"https", "real.example", "/", ""⟩
      (by decide) (by decide) (by decide) (by decide) (by decide) (by decide)
      (by decide) (by decide)
    rw [h]; decide

/-- Every `GET /tunnels` response carries the CORS origin header. -/
theorem cors_handleTunnels (req : Req) (reg : RegistryOutcome) :
    hasCors (handleTunnels req reg).1 = true := by
  cases reg <;> rfl

/-- Every registry-probe response (success relay and every error) carries the
CORS origin header. -/
theorem cors_handleRegistryRoute (env : Env) (req : Req) (tid : String)
    (reg : RegistryOutcome) (up : UpstreamOutcome) :
    hasCors (handleRegistryRoute env req tid reg up).1 = true := by
  unfold handleRegistryRoute
  repeat' split
  all_goals rfl

/-- Every invoke-route response (success relay and every error) carries the
CORS origin header. -/
theorem cors_handleInvokeRoute (env : Env) (req : Req) (tid : String)
    (reg : RegistryOutcome) (up : UpstreamOutcome) :
    hasCors (handleInvokeRoute env req tid reg up).1 = true := by
  unfold handleInvokeRoute
  repeat' split
  all_goals rfl

/-- On the generic route every worker-built response carries the CORS origin
header; the only exception is the pass-through of an upstream response, which
is returned with exactly the upstream's headers. -/
theorem cors_handleTunnelRoute (env : Env) (req : Req) (tid rem : String)
    (reg : RegistryOutcome) (up : UpstreamOutcome) :
    hasCors (handleTunnelRoute env req tid rem reg up).1 = true
    ∨ ∃ s st hs b, up = .resp s st hs b
        ∧ (handleTunnelRoute env req tid rem reg up).1 =
            { status := s, statusText := st, headers := hs, body := .stream b } := by
  unfold handleTunnelRoute
  repeat' split
  all_goals try (left; rfl)
  all_goals
    (right
     refine ⟨_, _, _, _, ?_, rfl⟩
     rfl)

/-- The default route answers with CORS headers unless it serves the static
asset. -/
theorem cors_handleDefault (env : Env) (assets : Option WResponse) :
    hasCors (handleDefault env assets).1 = true
    ∨ ∃ r, assets = some r ∧ (handleDefault env assets).1 = r := by
  unfold handleDefault
  split
  · rename_i r h
    right
    exact ⟨r, rfl, rfl⟩
  · left; rfl

/-- C2 (amended): every response the worker builds itself — the OPTIONS
preflight, the tunnel list, the registry-probe and invoke relays, the default
info payload, and every error response (403, 404, 405, non-ok relay, 500) —
carries `Access-Control-Allow-Origin: *`; the exceptions are the
generic-route pass-through, which is returned with exactly the upstream's own
headers, and a served static asset. -/
theorem c2_cors_on_every_worker_built_response (env : Env) (req : Req)
    (reg : RegistryOutcome) (up : UpstreamOutcome) (assets : Option WResponse) :
    hasCors (workerFetch env req reg up assets).1 = true
    ∨ (∃ s st hs b, up = .resp s st hs b
        ∧ (workerFetch env req reg up assets).1 =
            { status := s, statusText := st, headers := hs, body := .stream b })
    ∨ (∃ r, assets = some r ∧ (workerFetch env req reg up assets).1 = r) := by
  unfold workerFetch
  split
  · left; rfl
  · split
    · left; exact cors_handleTunnels req reg
    · split
      · rename_i tid rem heq
        split
        · left; exact cors_handleRegistryRoute env req tid reg up
        · split
          · left; exact cors_handleInvokeRoute env req tid reg up
          · rcases cors_handleTunnelRoute env req tid rem reg up with h | h
            · left; exact h
            · right; left; exact h
      · rcases cors_handleDefault env assets with h | h
        · left; exact h
        · right; right; exact h

/-- C2 counterexample: the generic-proxy success relays exactly the upstream
headers, so with an upstream that sets no CORS headers of its own the
response lacks `Access-Control-Allow-Origin`. -/
theorem c2_counterexample_generic_relay_lacks_cors :
    hasCors (workerFetch ⟨none, none, false⟩ ⟨"GET", "/tunnel/x/foo", "", [], none⟩
        (.ok ⟨true, [⟨"x", "https://u.example", 0, 0⟩], 1⟩)
        (.resp 200 "OK" [("X-Up", "1")] "ok") none).1 = false
    ∧ (workerFetch ⟨none, none, false⟩ ⟨"GET", "/tunnel/x/foo", "", [], none⟩
        (.ok ⟨true, [⟨"x", "https://u.example", 0, 0⟩], 1⟩)
        (.resp 200 "OK" [("X-Up", "1")] "ok") none).1.headers = [("X-Up", "1")] :=
  ⟨by rfl, by rfl⟩

end FrontJs
